import Mathlib

/-!
Shallow embedding of the credential-brokering core of
vault-gatekeeper-mesos: the policy store of policy.go and the
credential protocol adapters of unsealer.go.  Network and system
effects are made explicit: each operation takes the outcome of its
single HTTP request (or of its interface / file read) as a parameter,
so that the pure classification logic of the source is captured
exactly.
-/

set_option maxRecDepth 4000

/-- Policy record, from policy.go (struct policy).  Go zero values of
absent fields: nil slice as the empty list, nil map as the empty
association list, 0 for the integers. -/
structure policy where
  Policies : List String
  Meta : List (String × String)
  Ttl : Int
  NumUses : Int
deriving DecidableEq, Repr

/-- Hardcoded process-wide default policy, from policy.go
(var defaultPolicy): only Ttl is set, everything else is a Go zero
value. -/
def defaultPolicy : policy :=
  { Policies := [], Meta := [], Ttl := 21600, NumUses := 0 }

/-- The policy store type, from policy.go (type policies
map[string]*policy): a Go map from string keys to policies, embedded as
a partial function. -/
def policies : Type := String → Option policy

/-- Built-in default mapping installed on HTTP 404, from policy.go
(var defaultPolicies): the single wildcard entry. -/
def defaultPolicies : policies :=
  fun k => if k = "*" then
    some { Policies := ["default"], Meta := [], Ttl := 21600, NumUses := 0 }
  else none

/-- Lookup with three-tier fallback, from policy.go (policies.Get):
exact key, then the wildcard entry, then the hardcoded default. -/
def policies.Get (p : policies) (key : String) : policy :=
  match p key with
  | some pol => pol
  | none =>
    match p "*" with
    | some pol => pol
    | none => defaultPolicy

/-- Backend error envelope, from unsealer.go (struct vaultError): the
HTTP status code together with the messages of the decoded standard
error envelope. -/
structure vaultError where
  Code : Nat
  Errors : List String
deriving DecidableEq, Repr

/-- Causes a policyLoadError can wrap, from policy.go: the fixed
decode-failure diagnostic, a backend vaultError, or a transport error
propagated from the request layer. -/
inductive loadErrCause where
  | decodeMsg (msg : String)
  | backend (e : vaultError)
  | transport (e : String)
deriving DecidableEq, Repr

/-- Error wrapper returned by Load, from policy.go
(struct policyLoadError). -/
structure policyLoadError where
  Err : loadErrCause
deriving DecidableEq, Repr

/-- Fixed diagnostic message returned when the 200 policy document does
not decode, from policy.go line 70. -/
def policyDecodeErrorMsg : String :=
  "There was an error decoding policy from vault. This can occur when using vault-cli to save the policy json, as vault-cli saves it as a string rather than a json object."

/-- Outcome of the single GET issued by Load, with the results of the
two possible body decodings made explicit: decodeData is the result of
FromJsonTo against the data envelope, decodeErrors against the standard
error envelope. -/
structure LoadResp where
  StatusCode : Nat
  decodeData : Option policies
  decodeErrors : Option (List String)

/-- Clearing loop of Load, from policy.go lines 62-64 and 74-76: delete
every key of the map. -/
def clearStore (_p : policies) : policies := fun _ => none

/-- Repopulating loop of Load, from policy.go lines 65-67 and 77-79:
insert every entry of the source map into the store. -/
def overwriteAll (base src : policies) : policies :=
  fun k =>
    match src k with
    | some v => some v
    | none => base k

/-- Reload operation, from policy.go (policies.Load).  The argument r
is the outcome of the single authenticated GET: a transport error or a
response.  Returns the error result of Load together with the store
contents after the call. -/
def policies.Load (p : policies) (r : Except String LoadResp) :
    Option policyLoadError × policies :=
  match r with
  | Except.error e => (some { Err := loadErrCause.transport e }, p)
  | Except.ok resp =>
    if resp.StatusCode = 200 then
      match resp.decodeData with
      | some d => (none, overwriteAll (clearStore p) d)
      | none => (some { Err := loadErrCause.decodeMsg policyDecodeErrorMsg }, p)
    else if resp.StatusCode = 404 then
      (none, overwriteAll (clearStore p) defaultPolicies)
    else
      match resp.decodeErrors with
      | some errs =>
        (some ⟨loadErrCause.backend ⟨resp.StatusCode, errs⟩⟩, p)
      | none =>
        (some ⟨loadErrCause.backend ⟨resp.StatusCode, ["communication error."]⟩⟩, p)

/-!
Hash primitives used by the App-Identity adapter.  The source calls the
standard md5, sha1 and sha256 algorithms (crypto/md5, crypto/sha1,
crypto/sha256); they are embedded here in full over byte lists, with
32-bit words as naturals reduced modulo 2 to the 32.
-/

/-- Reduce a natural to a 32-bit word. -/
def w32 (x : Nat) : Nat := x % 4294967296

/-- Rotate a 32-bit word left by n bits. -/
def rotl32 (x n : Nat) : Nat := w32 ((x <<< n) ||| (x >>> (32 - n)))

/-- Rotate a 32-bit word right by n bits. -/
def rotr32 (x n : Nat) : Nat := w32 ((x >>> n) ||| (x <<< (32 - n)))

/-- Bitwise complement of a 32-bit word. -/
def not32 (x : Nat) : Nat := 4294967295 ^^^ x

/-- Big-endian 8-byte encoding of a natural (the sha1 and sha256 length
field). -/
def beBytes8 (n : Nat) : List Nat :=
  [(n >>> 56) % 256, (n >>> 48) % 256, (n >>> 40) % 256, (n >>> 32) % 256,
   (n >>> 24) % 256, (n >>> 16) % 256, (n >>> 8) % 256, n % 256]

/-- Little-endian 8-byte encoding of a natural (the md5 length
field). -/
def leBytes8 (n : Nat) : List Nat :=
  [n % 256, (n >>> 8) % 256, (n >>> 16) % 256, (n >>> 24) % 256,
   (n >>> 32) % 256, (n >>> 40) % 256, (n >>> 48) % 256, (n >>> 56) % 256]

/-- Big-endian 4-byte encoding of a 32-bit word. -/
def beWordBytes (x : Nat) : List Nat :=
  [(x >>> 24) % 256, (x >>> 16) % 256, (x >>> 8) % 256, x % 256]

/-- Little-endian 4-byte encoding of a 32-bit word. -/
def leWordBytes (x : Nat) : List Nat :=
  [x % 256, (x >>> 8) % 256, (x >>> 16) % 256, (x >>> 24) % 256]

/-- Merkle-Damgard padding shared by md5, sha1 and sha256: append the
0x80 marker, zeros up to 56 mod 64, then the bit length on 8 bytes in
the given byte order. -/
def mdPad (msg : List Nat) (lenEnc : Nat → List Nat) : List Nat :=
  msg ++ 128 :: List.replicate ((119 - msg.length % 64) % 64) 0
    ++ lenEnc (8 * msg.length)

/-- Big-endian 32-bit words of a byte list. -/
def beWords : List Nat → List Nat
  | a :: b :: c :: d :: rest => (((a * 256 + b) * 256 + c) * 256 + d) :: beWords rest
  | _ => []

/-- Little-endian 32-bit words of a byte list. -/
def leWords : List Nat → List Nat
  | a :: b :: c :: d :: rest => (((d * 256 + c) * 256 + b) * 256 + a) :: leWords rest
  | _ => []

/-- The i-th 64-byte block of a padded message. -/
def blockAt (msg : List Nat) (i : Nat) : List Nat :=
  (msg.drop (64 * i)).take 64

/-- Eight-word chaining state of sha256. -/
structure Sha2St where
  (a b c d e f g h : Nat)
deriving DecidableEq, Repr

/-- The sha256 round constants of FIPS 180-4, written in decimal. -/
def sha256K : List Nat :=
  [1116352408, 1899447441, 3049323471, 3921009573, 961987163, 1508970993,
   2453635748, 2870763221, 3624381080, 310598401, 607225278, 1426881987,
   1925078388, 2162078206, 2614888103, 3248222580, 3835390401, 4022224774,
   264347078, 604807628, 770255983, 1249150122, 1555081692, 1996064986,
   2554220882, 2821834349, 2952996808, 3210313671, 3336571891, 3584528711,
   113926993, 338241895, 666307205, 773529912, 1294757372, 1396182291,
   1695183700, 1986661051, 2177026350, 2456956037, 2730485921, 2820302411,
   3259730800, 3345764771, 3516065817, 3600352804, 4094571909, 275423344,
   430227734, 506948616, 659060556, 883997877, 958139571, 1322822218,
   1537002063, 1747873779, 1955562222, 2024104815, 2227730452, 2361852424,
   2428436474, 2756734187, 3204031479, 3329325298]

/-- The sha256 initial chaining state, written in decimal. -/
def sha256Init : Sha2St :=
  ⟨1779033703, 3144134277, 1013904242, 2773480762,
   1359893119, 2600822924, 528734635, 1541459225⟩

/-- Extend the sixteen block words to the 64-entry sha256 message
schedule. -/
def sha256Extend (w16 : List Nat) : List Nat :=
  (List.range 48).foldl (fun w i =>
    let j := i + 16
    let x15 := w.getD (j - 15) 0
    let x2 := w.getD (j - 2) 0
    let s0 := (rotr32 x15 7) ^^^ (rotr32 x15 18) ^^^ (x15 >>> 3)
    let s1 := (rotr32 x2 17) ^^^ (rotr32 x2 19) ^^^ (x2 >>> 10)
    w ++ [w32 (w.getD (j - 16) 0 + s0 + w.getD (j - 7) 0 + s1)]) w16

/-- One sha256 compression round with round constant k and schedule
word w. -/
def sha256Round (st : Sha2St) (k w : Nat) : Sha2St :=
  let s1 := (rotr32 st.e 6) ^^^ (rotr32 st.e 11) ^^^ (rotr32 st.e 25)
  let ch := (st.e &&& st.f) ^^^ ((not32 st.e) &&& st.g)
  let t1 := w32 (st.h + s1 + ch + k + w)
  let s0 := (rotr32 st.a 2) ^^^ (rotr32 st.a 13) ^^^ (rotr32 st.a 22)
  let maj := (st.a &&& st.b) ^^^ (st.a &&& st.c) ^^^ (st.b &&& st.c)
  let t2 := w32 (s0 + maj)
  ⟨w32 (t1 + t2), st.a, st.b, st.c, w32 (st.d + t1), st.e, st.f, st.g⟩

/-- Compress one 64-byte block into the sha256 chaining state. -/
def sha256Compress (h0 : Sha2St) (block : List Nat) : Sha2St :=
  let w := sha256Extend (beWords block)
  let st := (sha256K.zip w).foldl (fun st p => sha256Round st p.1 p.2) h0
  ⟨w32 (h0.a + st.a), w32 (h0.b + st.b), w32 (h0.c + st.c), w32 (h0.d + st.d),
   w32 (h0.e + st.e), w32 (h0.f + st.f), w32 (h0.g + st.g), w32 (h0.h + st.h)⟩

/-- The sha256 digest (32 bytes) of a byte list. -/
def sha256Bytes (msg : List Nat) : List Nat :=
  let padded := mdPad msg beBytes8
  let fin := (List.range (padded.length / 64)).foldl
    (fun h i => sha256Compress h (blockAt padded i)) sha256Init
  (([fin.a, fin.b, fin.c, fin.d, fin.e, fin.f, fin.g, fin.h]).map beWordBytes).flatten

/-- UTF-8 byte encoding of one character, as Go obtains when converting
a string to a byte slice. -/
def utf8BytesOfChar (c : Char) : List Nat :=
  let n := c.toNat
  if n < 128 then [n]
  else if n < 2048 then
    [192 ||| (n >>> 6), 128 ||| (n &&& 63)]
  else if n < 65536 then
    [224 ||| (n >>> 12), 128 ||| ((n >>> 6) &&& 63), 128 ||| (n &&& 63)]
  else
    [240 ||| (n >>> 18), 128 ||| ((n >>> 12) &&& 63),
     128 ||| ((n >>> 6) &&& 63), 128 ||| (n &&& 63)]

/-- UTF-8 bytes of a string. -/
def strBytes (s : String) : List Nat :=
  (s.data.map utf8BytesOfChar).flatten

/-- Lowercase hexadecimal digit of a value below 16. -/
def hexDigit (n : Nat) : Char :=
  if n < 10 then Char.ofNat (48 + n) else Char.ofNat (87 + n)

/-- Lowercase two-digit hexadecimal encoding of one byte. -/
def byteHex (b : Nat) : List Char :=
  [hexDigit (b / 16), hexDigit (b % 16)]

/-- Lowercase hexadecimal encoding of a byte list, as Go
hex.EncodeToString produces. -/
def hexEncode (bs : List Nat) : String :=
  String.mk ((bs.map byteHex).flatten)

/-- Hex-encoded sha256 digest of a string. -/
def sha256Hex (s : String) : String := hexEncode (sha256Bytes (strBytes s))

/-- Five-word chaining state of sha1. -/
structure Sha1St where
  (a b c d e : Nat)
deriving DecidableEq, Repr

/-- The sha1 initial chaining state, written in decimal. -/
def sha1Init : Sha1St :=
  ⟨1732584193, 4023233417, 2562383102, 271733878, 3285377520⟩

/-- Extend the sixteen block words to the 80-entry sha1 message
schedule. -/
def sha1Extend (w16 : List Nat) : List Nat :=
  (List.range 64).foldl (fun w i =>
    let j := i + 16
    w ++ [rotl32 ((w.getD (j - 3) 0) ^^^ (w.getD (j - 8) 0)
      ^^^ (w.getD (j - 14) 0) ^^^ (w.getD (j - 16) 0)) 1]) w16

/-- One sha1 compression round at index i with schedule word w. -/
def sha1Round (st : Sha1St) (i w : Nat) : Sha1St :=
  let fk : Nat × Nat :=
    if i < 20 then ((st.b &&& st.c) ||| ((not32 st.b) &&& st.d), 1518500249)
    else if i < 40 then (st.b ^^^ st.c ^^^ st.d, 1859775393)
    else if i < 60 then
      ((st.b &&& st.c) ||| (st.b &&& st.d) ||| (st.c &&& st.d), 2400959708)
    else (st.b ^^^ st.c ^^^ st.d, 3395469782)
  let t := w32 (rotl32 st.a 5 + fk.1 + st.e + fk.2 + w)
  ⟨t, st.a, rotl32 st.b 30, st.c, st.d⟩

/-- Compress one 64-byte block into the sha1 chaining state. -/
def sha1Compress (h0 : Sha1St) (block : List Nat) : Sha1St :=
  let w := sha1Extend (beWords block)
  let st := (List.range 80).foldl (fun st i => sha1Round st i (w.getD i 0)) h0
  ⟨w32 (h0.a + st.a), w32 (h0.b + st.b), w32 (h0.c + st.c),
   w32 (h0.d + st.d), w32 (h0.e + st.e)⟩

/-- The sha1 digest (20 bytes) of a byte list. -/
def sha1Bytes (msg : List Nat) : List Nat :=
  let padded := mdPad msg beBytes8
  let fin := (List.range (padded.length / 64)).foldl
    (fun h i => sha1Compress h (blockAt padded i)) sha1Init
  (([fin.a, fin.b, fin.c, fin.d, fin.e]).map beWordBytes).flatten

/-- Hex-encoded sha1 digest of a string. -/
def sha1Hex (s : String) : String := hexEncode (sha1Bytes (strBytes s))

/-- Four-word chaining state of md5. -/
structure Md5St where
  (a b c d : Nat)
deriving DecidableEq, Repr

/-- The md5 initial chaining state, written in decimal. -/
def md5Init : Md5St := ⟨1732584193, 4023233417, 2562383102, 271733878⟩

/-- The md5 round constants (the sine table of RFC 1321), written in
decimal. -/
def md5K : List Nat :=
  [3614090360, 3905402710, 606105819, 3250441966, 4118548399, 1200080426,
   2821735955, 4249261313, 1770035416, 2336552879, 4294925233, 2304563134,
   1804603682, 4254626195, 2792965006, 1236535329, 4129170786, 3225465664,
   643717713, 3921069994, 3593408605, 38016083, 3634488961, 3889429448,
   568446438, 3275163606, 4107603335, 1163531501, 2850285829, 4243563512,
   1735328473, 2368359562, 4294588738, 2272392833, 1839030562, 4259657740,
   2763975236, 1272893353, 4139469664, 3200236656, 681279174, 3936430074,
   3572445317, 76029189, 3654602809, 3873151461, 530742520, 3299628645,
   4096336452, 1126891415, 2878612391, 4237533241, 1700485571, 2399980690,
   4293915773, 2240044497, 1873313359, 4264355552, 2734768916, 1309151649,
   4149444226, 3174756917, 718787259, 3951481745]

/-- The md5 per-round left-rotation amounts. -/
def md5S : List Nat :=
  [7, 12, 17, 22, 7, 12, 17, 22, 7, 12, 17, 22, 7, 12, 17, 22,
   5, 9, 14, 20, 5, 9, 14, 20, 5, 9, 14, 20, 5, 9, 14, 20,
   4, 11, 16, 23, 4, 11, 16, 23, 4, 11, 16, 23, 4, 11, 16, 23,
   6, 10, 15, 21, 6, 10, 15, 21, 6, 10, 15, 21, 6, 10, 15, 21]

/-- One md5 round at index i over the block words m. -/
def md5Round (m : List Nat) (st : Md5St) (i : Nat) : Md5St :=
  let fg : Nat × Nat :=
    if i < 16 then ((st.b &&& st.c) ||| ((not32 st.b) &&& st.d), i)
    else if i < 32 then ((st.d &&& st.b) ||| ((not32 st.d) &&& st.c), (5 * i + 1) % 16)
    else if i < 48 then (st.b ^^^ st.c ^^^ st.d, (3 * i + 5) % 16)
    else (st.c ^^^ (st.b ||| (not32 st.d)), (7 * i) % 16)
  let x := w32 (fg.1 + st.a + md5K.getD i 0 + m.getD fg.2 0)
  ⟨st.d, w32 (st.b + rotl32 x (md5S.getD i 0)), st.b, st.c⟩

/-- Compress one 64-byte block into the md5 chaining state. -/
def md5Compress (h0 : Md5St) (block : List Nat) : Md5St :=
  let m := leWords block
  let st := (List.range 64).foldl (md5Round m) h0
  ⟨w32 (h0.a + st.a), w32 (h0.b + st.b), w32 (h0.c + st.c), w32 (h0.d + st.d)⟩

/-- The md5 digest (16 bytes) of a byte list. -/
def md5Bytes (msg : List Nat) : List Nat :=
  let padded := mdPad msg leBytes8
  let fin := (List.range (padded.length / 64)).foldl
    (fun h i => md5Compress h (blockAt padded i)) md5Init
  (([fin.a, fin.b, fin.c, fin.d]).map leWordBytes).flatten

/-- Hex-encoded md5 digest of a string. -/
def md5Hex (s : String) : String := hexEncode (md5Bytes (strBytes s))

/-!
Credential protocol adapters, from unsealer.go.
-/

/-- Auth block of the standard auth envelope, from unsealer.go
(struct vaultTokenResp). -/
structure vaultAuth where
  ClientToken : String
  LeaseDuration : Int
  TTL : Int
deriving DecidableEq, Repr

/-- The standard auth envelope returned on a successful login. -/
structure vaultTokenResp where
  Auth : vaultAuth
deriving DecidableEq, Repr

/-- The error values a Token call can return, from unsealer.go:
a propagated transport error, a backend vaultError, a decode failure of
the auth envelope, a local I/O failure (interface lookup or file read),
or one of the two fixed configuration errors. -/
inductive UnsealErr where
  | transport (e : String)
  | backend (e : vaultError)
  | decode (e : String)
  | sysRead (e : String)
  | unknownUserIdMethod
  | unknownHashMethod
deriving DecidableEq, Repr

/-- The fixed error for an unrecognized user id method, from
unsealer.go (var errUnknownUserIdMethod). -/
def errUnknownUserIdMethod : UnsealErr := UnsealErr.unknownUserIdMethod

/-- The fixed error for an unrecognized hash method, from unsealer.go
(var errUnknownHashMethod). -/
def errUnknownHashMethod : UnsealErr := UnsealErr.unknownHashMethod

/-- Static token adapter, from unsealer.go (struct TokenUnsealer). -/
structure TokenUnsealer where
  AuthToken : String
deriving DecidableEq, Repr

/-- Outcome of the lookup-self GET issued by TokenUnsealer.Token:
status code and the result of decoding the body as the standard error
envelope. -/
structure SelfLookupResp where
  StatusCode : Nat
  decodeErrors : Option (List String)
deriving DecidableEq, Repr

/-- Static token validation, from unsealer.go (TokenUnsealer.Token).
The argument r is the outcome of the single lookup-self request. -/
def TokenUnsealer.Token (t : TokenUnsealer) (r : Except String SelfLookupResp) :
    Except UnsealErr String :=
  match r with
  | Except.error e => Except.error (UnsealErr.transport e)
  | Except.ok resp =>
    if resp.StatusCode = 200 then Except.ok t.AuthToken
    else
      match resp.decodeErrors with
      | some errs => Except.error (UnsealErr.backend ⟨resp.StatusCode, errs⟩)
      | none =>
        Except.error (UnsealErr.backend ⟨resp.StatusCode, ["communication error."]⟩)

/-- Name of the static token adapter, from unsealer.go. -/
def TokenUnsealer.Name (_t : TokenUnsealer) : String := "token"

/-- Outcome of the single login POST executed by the generic login
executor: status code, the result of decoding the body as the auth
envelope, and the result of decoding it as the error envelope. -/
structure GenericResp where
  StatusCode : Nat
  decodeAuth : Except String vaultTokenResp
  decodeErrors : Option (List String)

/-- Generic login executor, from unsealer.go (genericUnsealer.Token).
The argument r is the outcome of the single req.Do call. -/
def genericUnsealerToken (r : Except String GenericResp) : Except UnsealErr String :=
  match r with
  | Except.error e => Except.error (UnsealErr.transport e)
  | Except.ok resp =>
    if resp.StatusCode = 200 then
      match resp.decodeAuth with
      | Except.ok t => Except.ok t.Auth.ClientToken
      | Except.error e => Except.error (UnsealErr.decode e)
    else
      match resp.decodeErrors with
      | some errs => Except.error (UnsealErr.backend ⟨resp.StatusCode, errs⟩)
      | none =>
        Except.error (UnsealErr.backend ⟨resp.StatusCode, ["communication error."]⟩)

/-- The source executes req.Do exactly once.  Modelling the transport
as a stream of per-attempt outcomes, the single call consumes attempt
zero. -/
def genericUnsealerTokenStream (attempts : Nat → Except String GenericResp) :
    Except UnsealErr String :=
  genericUnsealerToken (attempts 0)

/-- App-Identity adapter configuration, from unsealer.go
(struct AppIdUnsealer). -/
structure AppIdUnsealer where
  AppId : String
  UserIdMethod : String
  UserIdInterface : String
  UserIdPath : String
  UserIdHash : String
  UserIdSalt : String
deriving DecidableEq, Repr

/-- Results of the local system reads AppIdUnsealer.Token can perform:
the hardware address string of a named interface, and the contents of a
named file.  Each read either succeeds or yields an I/O error
message. -/
structure SysEnv where
  interfaceByName : String → Except String String
  readFile : String → Except String String

/-- User id derivation switch of AppIdUnsealer.Token, from unsealer.go
lines 117-132: mac reads the hardware address of the configured
interface, file reads the configured file, anything else fails with
errUnknownUserIdMethod. -/
def AppIdUnsealer.deriveUserId (a : AppIdUnsealer) (env : SysEnv) :
    Except UnsealErr String :=
  if a.UserIdMethod = "mac" then
    match env.interfaceByName a.UserIdInterface with
    | Except.ok addr => Except.ok addr
    | Except.error e => Except.error (UnsealErr.sysRead e)
  else if a.UserIdMethod = "file" then
    match env.readFile a.UserIdPath with
    | Except.ok b => Except.ok b
    | Except.error e => Except.error (UnsealErr.sysRead e)
  else Except.error errUnknownUserIdMethod

/-- Hasher selection switch of AppIdUnsealer.Token, from unsealer.go
lines 133-145: md5, sha1 and sha256 select the respective digest, the
empty string selects no hasher, anything else fails with
errUnknownHashMethod. -/
def selectHasher : String → Except UnsealErr (Option (List Nat → List Nat))
  | "md5" => Except.ok (some md5Bytes)
  | "sha1" => Except.ok (some sha1Bytes)
  | "sha256" => Except.ok (some sha256Bytes)
  | "" => Except.ok none
  | _ => Except.error errUnknownHashMethod

/-- Body preparation of AppIdUnsealer.Token, from unsealer.go lines
113-156: derive the user id, then, when a hasher is selected, prefix
the salt and a dollar sign when the salt is non-empty, hash and
hex-encode.  Returns the user_id value the login body would carry, or
the error returned before any request is built. -/
def AppIdUnsealer.prepareBody (a : AppIdUnsealer) (env : SysEnv) :
    Except UnsealErr String :=
  match a.deriveUserId env with
  | Except.error e => Except.error e
  | Except.ok uid =>
    match selectHasher a.UserIdHash with
    | Except.error e => Except.error e
    | Except.ok none => Except.ok uid
    | Except.ok (some hf) =>
      let h := if a.UserIdSalt ≠ "" then a.UserIdSalt ++ "$" ++ uid else uid
      Except.ok (hexEncode (hf (strBytes h)))

/-- The login request AppIdUnsealer.Token submits to the generic
executor, from unsealer.go lines 157-161: a POST to the app-id login
path carrying the user id in the body. -/
structure LoginRequest where
  UriPath : String
  Method : String
  BodyUserId : String
deriving DecidableEq, Repr

/-- App-Identity token acquisition, from unsealer.go
(AppIdUnsealer.Token).  The argument net gives the outcome of executing
a constructed login request; it is consulted only after body
preparation succeeds. -/
def AppIdUnsealer.Token (a : AppIdUnsealer) (env : SysEnv)
    (net : LoginRequest → Except String GenericResp) : Except UnsealErr String :=
  match a.prepareBody env with
  | Except.error e => Except.error e
  | Except.ok uid =>
    genericUnsealerToken (net
      ⟨"/v1/auth/app-id/login/" ++ a.AppId, "POST", uid⟩)

/-- Name of the App-Identity adapter, from unsealer.go. -/
def AppIdUnsealer.Name (_a : AppIdUnsealer) : String := "app-id"

/-!
Step-level model of the replacement loops of policies.Load, for the
interleaving analysis.  The source clears and repopulates the shared
map with one map operation per loop iteration and takes no lock
(policy.go imports no sync package and activePolicies is a plain map),
so a concurrent Get can run between any two of these primitive
steps.
-/

/-- One iteration of the clearing loop: delete a single key. -/
def storeDelete (p : policies) (k : String) : policies :=
  fun x => if x = k then none else p x

/-- One iteration of the repopulating loop: insert a single entry. -/
def storeInsert (p : policies) (k : String) (v : policy) : policies :=
  fun x => if x = k then some v else p x

/-- The primitive store mutations the 200 branch of Load performs, in
program order: one delete per existing key, then one insert per decoded
entry. -/
def loadSteps (keys : List String) (data : List (String × policy)) :
    List (policies → policies) :=
  keys.map (fun k => fun st => storeDelete st k)
    ++ data.map (fun kv => fun st => storeInsert st kv.1 kv.2)

/-- All store states reachable while the mutation steps run: the state
before each step and the final state.  A concurrent Get can observe any
of them. -/
def runStates (st : policies) : List (policies → policies) → List policies
  | [] => [st]
  | f :: fs => st :: runStates (f st) fs

/-!
Concrete fixtures used by the witness theorems.
-/

/-- A concrete exact-match policy. -/
def polA : policy := ⟨["admin"], [], 100, 0⟩

/-- A concrete wildcard policy. -/
def polStar : policy := ⟨["wild"], [], 200, 0⟩

/-- A concrete store holding an exact entry and a wildcard entry. -/
def storeW : policies :=
  fun k => if k = "a" then some polA else if k = "*" then some polStar else none

/-- A concrete pre-reload store used by the reload witnesses. -/
def storeOld : policies :=
  fun k => if k = "old" then some polA else none

/-- A concrete decoded policy mapping used by the reload witnesses. -/
def dataD : policies :=
  fun k => if k = "a" then some polStar else none

/-- A concrete App-Identity adapter reading its user id from a file and
hashing with sha256 over the salt s. -/
def appIdW : AppIdUnsealer :=
  ⟨"app", "file", "", "/etc/uid", "sha256", "s"⟩

/-- A concrete system environment whose configured file reads as the
two-character string u. -/
def envW : SysEnv :=
  ⟨fun _ => Except.error "no such interface", fun p => if p = "/etc/uid" then Except.ok "u" else Except.error "no such file"⟩

/-!
Claim theorems.
-/

/-- C1: Get returns the exact entry for a present key, otherwise the
wildcard entry when present, otherwise the hardcoded process default
policy whose ttl is 21600 and whose policy list is empty; being total
it never fails and never returns an absent value. -/
theorem C1_get_three_tier_fallback (p : policies) (k : String) :
    (∀ v, p k = some v → policies.Get p k = v) ∧
    (p k = none → ∀ v, p "*" = some v → policies.Get p k = v) ∧
    (p k = none → p "*" = none → policies.Get p k = defaultPolicy) ∧
    defaultPolicy.Ttl = 21600 ∧ defaultPolicy.Policies = [] := by
  refine ⟨?_, ?_, ?_, rfl, rfl⟩ <;> intros <;> simp [policies.Get, *]

/-- Witness for C1 at a concrete store: exact hit, wildcard fallback
and default fallback. -/
theorem C1_get_three_tier_fallback_witness :
    policies.Get storeW "a" = polA ∧
    policies.Get storeW "b" = polStar ∧
    policies.Get (fun _ => none) "b" = defaultPolicy :=
  ⟨(C1_get_three_tier_fallback storeW "a").1 polA (by decide),
   (C1_get_three_tier_fallback storeW "b").2.1 (by decide) polStar (by decide),
   (C1_get_three_tier_fallback (fun _ => none) "b").2.2.1 rfl rfl⟩

/-- C2: a Load receiving HTTP 200 with decoded mapping D succeeds and
replaces the store contents with exactly D: every key maps as in D, Get
reflects D on the keys of D, and keys absent from D are absent
afterwards whatever the pre-reload store held. -/
theorem C2_load_replaces_store (p D : policies) (resp : LoadResp)
    (h200 : resp.StatusCode = 200) (hD : resp.decodeData = some D) :
    (policies.Load p (Except.ok resp)).1 = none ∧
    (∀ k, (policies.Load p (Except.ok resp)).2 k = D k) ∧
    (∀ k v, D k = some v → policies.Get (policies.Load p (Except.ok resp)).2 k = v) ∧
    (∀ k, D k = none → (policies.Load p (Except.ok resp)).2 k = none) := by
  have hres : ∀ k, (policies.Load p (Except.ok resp)).2 k = D k := by
    intro k
    simp only [policies.Load, h200, hD, if_pos]
    simp only [overwriteAll, clearStore]
    cases D k <;> rfl
  refine ⟨by simp [policies.Load, h200, hD], hres, ?_, ?_⟩
  · intro k v hv
    simp [policies.Get, hres k, hv]
  · intro k hk
    simp [hres k, hk]

/-- Witness for C2 at a concrete pre-reload store and decoded
mapping. -/
theorem C2_load_replaces_store_witness :
    (policies.Load storeOld (Except.ok ⟨200, some dataD, none⟩)).1 = none ∧
    (policies.Load storeOld (Except.ok ⟨200, some dataD, none⟩)).2 "a" = some polStar ∧
    policies.Get (policies.Load storeOld (Except.ok ⟨200, some dataD, none⟩)).2 "a" = polStar ∧
    (policies.Load storeOld (Except.ok ⟨200, some dataD, none⟩)).2 "old" = none := by
  have h := C2_load_replaces_store storeOld dataD ⟨200, some dataD, none⟩ rfl rfl
  exact ⟨h.1, by rw [h.2.1 "a"]; decide, h.2.2.1 "a" polStar (by decide),
    h.2.2.2 "old" (by decide)⟩

/-- C3: a Load receiving a status other than 200 and 404 fails with a
policyLoadError wrapping a backend vaultError whose code is the status
and whose messages are the decoded error envelope, or the fixed
communication-error message when the envelope does not decode, and the
store is left unmodified. -/
theorem C3_load_error_passthrough (p : policies) (resp : LoadResp)
    (h200 : resp.StatusCode ≠ 200) (h404 : resp.StatusCode ≠ 404) :
    (∀ errs, resp.decodeErrors = some errs →
      policies.Load p (Except.ok resp) =
        (some ⟨loadErrCause.backend ⟨resp.StatusCode, errs⟩⟩, p)) ∧
    (resp.decodeErrors = none →
      policies.Load p (Except.ok resp) =
        (some ⟨loadErrCause.backend ⟨resp.StatusCode, ["communication error."]⟩⟩, p)) := by
  constructor
  · intro errs herrs
    simp [policies.Load, h200, h404, herrs]
  · intro hnone
    simp [policies.Load, h200, h404, hnone]

/-- Witness for C3 at status 500, in both the parseable-envelope and
unparseable-body cases. -/
theorem C3_load_error_passthrough_witness :
    policies.Load storeOld (Except.ok ⟨500, none, some ["permission denied"]⟩) =
      (some ⟨loadErrCause.backend ⟨500, ["permission denied"]⟩⟩, storeOld) ∧
    policies.Load storeOld (Except.ok ⟨500, none, none⟩) =
      (some ⟨loadErrCause.backend ⟨500, ["communication error."]⟩⟩, storeOld) :=
  ⟨(C3_load_error_passthrough storeOld ⟨500, none, some ["permission denied"]⟩
      (by decide) (by decide)).1 ["permission denied"] rfl,
   (C3_load_error_passthrough storeOld ⟨500, none, none⟩
      (by decide) (by decide)).2 rfl⟩

/-- C4: a Load receiving HTTP 404 returns no error and afterwards the
store equals the built-in default mapping: exactly the wildcard entry
carrying the policy list containing default and ttl 21600, every other
key absent. -/
theorem C4_load_404_default_mapping (p : policies) (resp : LoadResp)
    (h404 : resp.StatusCode = 404) :
    (policies.Load p (Except.ok resp)).1 = none ∧
    (∀ k, (policies.Load p (Except.ok resp)).2 k = defaultPolicies k) ∧
    (policies.Load p (Except.ok resp)).2 "*" =
      some ⟨["default"], [], 21600, 0⟩ ∧
    (∀ k, k ≠ "*" → (policies.Load p (Except.ok resp)).2 k = none) := by
  have h200 : resp.StatusCode ≠ 200 := by omega
  have hres : ∀ k, (policies.Load p (Except.ok resp)).2 k = defaultPolicies k := by
    intro k
    simp only [policies.Load, h200, h404, if_neg, if_pos, reduceIte]
    by_cases hk : k = "*" <;> simp [overwriteAll, clearStore, defaultPolicies, hk]
  refine ⟨by simp [policies.Load, h200, h404], hres, ?_, ?_⟩
  · rw [hres "*"]; rfl
  · intro k hk
    rw [hres k]
    simp [defaultPolicies, hk]

/-- Witness for C4 at a concrete pre-reload store. -/
theorem C4_load_404_default_mapping_witness :
    (policies.Load storeOld (Except.ok ⟨404, none, none⟩)).1 = none ∧
    (policies.Load storeOld (Except.ok ⟨404, none, none⟩)).2 "*" =
      some ⟨["default"], [], 21600, 0⟩ ∧
    (policies.Load storeOld (Except.ok ⟨404, none, none⟩)).2 "old" = none := by
  have h := C4_load_404_default_mapping storeOld ⟨404, none, none⟩ rfl
  exact ⟨h.1, h.2.2.1, h.2.2.2 "old" (by decide)⟩

/-- The hasher selection falls through to errUnknownHashMethod on
every string other than the three algorithm names and the empty
string. -/
theorem selectHasher_unknown (s : String) (h1 : s ≠ "md5") (h2 : s ≠ "sha1")
    (h3 : s ≠ "sha256") (h4 : s ≠ "") :
    selectHasher s = Except.error errUnknownHashMethod := by
  unfold selectHasher
  split <;> simp_all

/-- C5: with a non-empty salt, App-Identity Token submits as user id
the lowercase hex digest of the salt, a dollar sign and the derived
user id, under the configured algorithm for each of sha256, md5 and
sha1; salt s with user id u under sha256 yields the fixed digest of
the three-character string; an unrecognized non-empty hash method
fails with errUnknownHashMethod. -/
theorem C5_appid_hashed_user_id (a : AppIdUnsealer) (env : SysEnv) (u : String)
    (hu : a.deriveUserId env = Except.ok u) (hsalt : a.UserIdSalt ≠ "") :
    (a.UserIdHash = "sha256" →
      a.prepareBody env = Except.ok (sha256Hex (a.UserIdSalt ++ "$" ++ u)) ∧
      ∀ net, a.Token env net = genericUnsealerToken
        (net ⟨"/v1/auth/app-id/login/" ++ a.AppId, "POST",
          sha256Hex (a.UserIdSalt ++ "$" ++ u)⟩)) ∧
    (a.UserIdHash = "md5" →
      a.prepareBody env = Except.ok (md5Hex (a.UserIdSalt ++ "$" ++ u))) ∧
    (a.UserIdHash = "sha1" →
      a.prepareBody env = Except.ok (sha1Hex (a.UserIdSalt ++ "$" ++ u))) ∧
    (a.UserIdHash ≠ "md5" → a.UserIdHash ≠ "sha1" → a.UserIdHash ≠ "sha256" →
      a.UserIdHash ≠ "" →
      a.prepareBody env = Except.error errUnknownHashMethod) ∧
    sha256Hex "s$u" =
      "aa97e36bca8489e6e24764827d64b2626db966c5f286512d80576f51a718821a" := by
  refine ⟨?_, ?_, ?_, ?_, by decide⟩
  · intro hh
    have hprep : a.prepareBody env = Except.ok (sha256Hex (a.UserIdSalt ++ "$" ++ u)) := by
      simp [AppIdUnsealer.prepareBody, hu, hh, selectHasher, hsalt, sha256Hex]
    exact ⟨hprep, fun net => by simp [AppIdUnsealer.Token, hprep]⟩
  · intro hh
    simp [AppIdUnsealer.prepareBody, hu, hh, selectHasher, hsalt, md5Hex]
  · intro hh
    simp [AppIdUnsealer.prepareBody, hu, hh, selectHasher, hsalt, sha1Hex]
  · intro h1 h2 h3 h4
    simp [AppIdUnsealer.prepareBody, hu, selectHasher_unknown a.UserIdHash h1 h2 h3 h4]

/-- Witness for C5 at a concrete adapter with salt s and derived user
id u: the submitted user id is the fixed sha256 digest, and the md5 and
sha1 and unknown-method cases at concrete adapters. -/
theorem C5_appid_hashed_user_id_witness :
    appIdW.prepareBody envW = Except.ok
      "aa97e36bca8489e6e24764827d64b2626db966c5f286512d80576f51a718821a" ∧
    (AppIdUnsealer.prepareBody ⟨"app", "file", "", "/etc/uid", "md5", "s"⟩ envW
      = Except.ok "706d2ab2fc23e09dafc661e0f9f81076") ∧
    (AppIdUnsealer.prepareBody ⟨"app", "file", "", "/etc/uid", "crc32", "s"⟩ envW
      = Except.error errUnknownHashMethod) := by
  have h := C5_appid_hashed_user_id appIdW envW "u" rfl (by decide)
  have hmd5 := C5_appid_hashed_user_id ⟨"app", "file", "", "/etc/uid", "md5", "s"⟩
    envW "u" rfl (by decide)
  have hcrc := C5_appid_hashed_user_id ⟨"app", "file", "", "/etc/uid", "crc32", "s"⟩
    envW "u" rfl (by decide)
  refine ⟨?_, ?_, ?_⟩
  · rw [(h.1 rfl).1]
    exact congrArg Except.ok (by decide)
  · rw [hmd5.2.1 rfl]
    exact congrArg Except.ok (by decide)
  · exact hcrc.2.2.2.1 (by decide) (by decide) (by decide) (by decide)

/-- C6: an App-Identity adapter whose user id method is neither mac nor
file fails with errUnknownUserIdMethod before any login request is
built, and its Token result is the same error whatever the transport
would answer, so no network call is issued. -/
theorem C6_appid_unknown_method_no_network (a : AppIdUnsealer) (env : SysEnv)
    (hm : a.UserIdMethod ≠ "mac") (hf : a.UserIdMethod ≠ "file") :
    a.prepareBody env = Except.error errUnknownUserIdMethod ∧
    ∀ net, a.Token env net = Except.error errUnknownUserIdMethod := by
  have hprep : a.prepareBody env = Except.error errUnknownUserIdMethod := by
    simp [AppIdUnsealer.prepareBody, AppIdUnsealer.deriveUserId, hm, hf]
  exact ⟨hprep, fun net => by simp [AppIdUnsealer.Token, hprep]⟩

/-- Witness for C6 at a concrete adapter with user id method env. -/
theorem C6_appid_unknown_method_no_network_witness :
    AppIdUnsealer.Token ⟨"app", "env", "", "", "", ""⟩ envW
      (fun _ => Except.ok ⟨200, Except.ok ⟨⟨"tok", 0, 0⟩⟩, none⟩)
      = Except.error errUnknownUserIdMethod :=
  (C6_appid_unknown_method_no_network ⟨"app", "env", "", "", "", ""⟩ envW
    (by decide) (by decide)).2
    (fun _ => Except.ok ⟨200, Except.ok ⟨⟨"tok", 0, 0⟩⟩, none⟩)

/-- C10: with an empty hash method the derived user id is submitted
exactly as derived, even when the salt is non-empty: the salt only
affects the submitted user id when a hash method is configured. -/
theorem C10_appid_no_hash_ignores_salt (a : AppIdUnsealer) (env : SysEnv) (u : String)
    (hu : a.deriveUserId env = Except.ok u) (hh : a.UserIdHash = "") :
    a.prepareBody env = Except.ok u ∧
    ∀ net, a.Token env net = genericUnsealerToken
      (net ⟨"/v1/auth/app-id/login/" ++ a.AppId, "POST", u⟩) := by
  have hprep : a.prepareBody env = Except.ok u := by
    simp [AppIdUnsealer.prepareBody, hu, hh, selectHasher]
  exact ⟨hprep, fun net => by simp [AppIdUnsealer.Token, hprep]⟩

/-- Witness for C10 at a concrete adapter with a non-empty salt and no
hash method: the file contents pass through unchanged. -/
theorem C10_appid_no_hash_ignores_salt_witness :
    AppIdUnsealer.prepareBody ⟨"app", "file", "", "/etc/uid", "", "s"⟩ envW
      = Except.ok "u" :=
  (C10_appid_no_hash_ignores_salt ⟨"app", "file", "", "/etc/uid", "", "s"⟩
    envW "u" rfl rfl).1

/-- C7: the static token adapter returns the presented token unchanged
on a 200 self-lookup response, and on any other status fails with a
backend vaultError carrying the upstream status and its parsed error
messages, or the fixed communication-error message when the body does
not parse. -/
theorem C7_static_token_passthrough (t : TokenUnsealer) (resp : SelfLookupResp) :
    (resp.StatusCode = 200 →
      t.Token (Except.ok resp) = Except.ok t.AuthToken) ∧
    (resp.StatusCode ≠ 200 → ∀ errs, resp.decodeErrors = some errs →
      t.Token (Except.ok resp) =
        Except.error (UnsealErr.backend ⟨resp.StatusCode, errs⟩)) ∧
    (resp.StatusCode ≠ 200 → resp.decodeErrors = none →
      t.Token (Except.ok resp) =
        Except.error (UnsealErr.backend ⟨resp.StatusCode, ["communication error."]⟩)) := by
  refine ⟨?_, ?_, ?_⟩
  · intro h200
    simp [TokenUnsealer.Token, h200]
  · intro h200 errs herrs
    simp [TokenUnsealer.Token, h200, herrs]
  · intro h200 hnone
    simp [TokenUnsealer.Token, h200, hnone]

/-- Witness for C7 at a concrete token: 200 passthrough, 403 with
parsed messages and 403 with unparseable body. -/
theorem C7_static_token_passthrough_witness :
    TokenUnsealer.Token ⟨"tok"⟩ (Except.ok ⟨200, none⟩) = Except.ok "tok" ∧
    TokenUnsealer.Token ⟨"tok"⟩ (Except.ok ⟨403, some ["permission denied"]⟩) =
      Except.error (UnsealErr.backend ⟨403, ["permission denied"]⟩) ∧
    TokenUnsealer.Token ⟨"tok"⟩ (Except.ok ⟨403, none⟩) =
      Except.error (UnsealErr.backend ⟨403, ["communication error."]⟩) :=
  ⟨(C7_static_token_passthrough ⟨"tok"⟩ ⟨200, none⟩).1 rfl,
   (C7_static_token_passthrough ⟨"tok"⟩ ⟨403, some ["permission denied"]⟩).2.1
     (by decide) ["permission denied"] rfl,
   (C7_static_token_passthrough ⟨"tok"⟩ ⟨403, none⟩).2.2 (by decide) rfl⟩

/-- C8: the generic login executor classifies the outcome of its single
attempt: on 200 it returns the client token of the decoded auth
envelope and fails with the decode error on a malformed envelope, on
any other status it fails with a backend vaultError carrying the status
and the decoded errors or the fixed communication-error message, on
transport failure it propagates the transport error; and the result
depends only on attempt zero of the transport stream, so exactly one
attempt is made. -/
theorem C8_generic_executor_classification (resp : GenericResp) :
    (resp.StatusCode = 200 → ∀ tr, resp.decodeAuth = Except.ok tr →
      genericUnsealerToken (Except.ok resp) = Except.ok tr.Auth.ClientToken) ∧
    (resp.StatusCode = 200 → ∀ e, resp.decodeAuth = Except.error e →
      genericUnsealerToken (Except.ok resp) = Except.error (UnsealErr.decode e)) ∧
    (resp.StatusCode ≠ 200 → ∀ errs, resp.decodeErrors = some errs →
      genericUnsealerToken (Except.ok resp) =
        Except.error (UnsealErr.backend ⟨resp.StatusCode, errs⟩)) ∧
    (resp.StatusCode ≠ 200 → resp.decodeErrors = none →
      genericUnsealerToken (Except.ok resp) =
        Except.error (UnsealErr.backend ⟨resp.StatusCode, ["communication error."]⟩)) ∧
    (∀ e, genericUnsealerToken (Except.error e) =
      Except.error (UnsealErr.transport e)) ∧
    (∀ f g : Nat → Except String GenericResp, f 0 = g 0 →
      genericUnsealerTokenStream f = genericUnsealerTokenStream g) := by
  refine ⟨?_, ?_, ?_, ?_, fun e => rfl, ?_⟩
  · intro h200 tr htr
    simp [genericUnsealerToken, h200, htr]
  · intro h200 e he
    simp [genericUnsealerToken, h200, he]
  · intro h200 errs herrs
    simp [genericUnsealerToken, h200, herrs]
  · intro h200 hnone
    simp [genericUnsealerToken, h200, hnone]
  · intro f g hfg
    simp [genericUnsealerTokenStream, hfg]

/-- Witness for C8 at concrete outcomes: successful decode, malformed
envelope, backend error with and without messages, transport failure,
and first-attempt dependence. -/
theorem C8_generic_executor_classification_witness :
    genericUnsealerToken (Except.ok ⟨200, Except.ok ⟨⟨"ct", 60, 60⟩⟩, none⟩) =
      Except.ok "ct" ∧
    genericUnsealerToken (Except.ok ⟨200, Except.error "bad json", none⟩) =
      Except.error (UnsealErr.decode "bad json") ∧
    genericUnsealerToken (Except.ok ⟨500, Except.error "x", some ["boom"]⟩) =
      Except.error (UnsealErr.backend ⟨500, ["boom"]⟩) ∧
    genericUnsealerToken (Except.ok ⟨500, Except.error "x", none⟩) =
      Except.error (UnsealErr.backend ⟨500, ["communication error."]⟩) ∧
    genericUnsealerToken (Except.error "conn refused") =
      Except.error (UnsealErr.transport "conn refused") ∧
    genericUnsealerTokenStream (fun _ => Except.error "conn refused") =
      genericUnsealerTokenStream (fun n => if n = 0 then Except.error "conn refused"
        else Except.ok ⟨200, Except.ok ⟨⟨"ct", 60, 60⟩⟩, none⟩) :=
  ⟨(C8_generic_executor_classification ⟨200, Except.ok ⟨⟨"ct", 60, 60⟩⟩, none⟩).1
     rfl ⟨⟨"ct", 60, 60⟩⟩ rfl,
   (C8_generic_executor_classification ⟨200, Except.error "bad json", none⟩).2.1
     rfl "bad json" rfl,
   (C8_generic_executor_classification ⟨500, Except.error "x", some ["boom"]⟩).2.2.1
     (by decide) ["boom"] rfl,
   (C8_generic_executor_classification ⟨500, Except.error "x", none⟩).2.2.2.1
     (by decide) rfl,
   (C8_generic_executor_classification ⟨500, Except.error "x", none⟩).2.2.2.2.1
     "conn refused",
   (C8_generic_executor_classification ⟨500, Except.error "x", none⟩).2.2.2.2.2
     (fun _ => Except.error "conn refused")
     (fun n => if n = 0 then Except.error "conn refused"
       else Except.ok ⟨200, Except.ok ⟨⟨"ct", 60, 60⟩⟩, none⟩) rfl⟩

/-- A concrete replacement target for the interleaving analysis. -/
def polNew : policy := ⟨["new"], [], 2, 0⟩

/-- The store state a concurrent Get can observe between the clearing
loop and the repopulating loop of a reload of the single-entry store:
the first intermediate state of the step run. -/
def midStore : policies :=
  (runStates storeOld (loadSteps ["old"] [("old", polNew)])).getD 1 storeOld

/-- The store state after all steps of the same reload. -/
def finStore : policies :=
  (runStates storeOld (loadSteps ["old"] [("old", polNew)])).getD 2 storeOld

/-- C9 evidence: the unlocked clear-then-repopulate loops of Load admit
an interleaving point at which the store is empty, so a concurrent Get
there observes neither the old nor the new mapping but the hardcoded
default policy, contradicting the claim that every lookup sees the
entirely-old or entirely-new mapping. -/
theorem C9_empty_window_observable :
    policies.Get storeOld "old" = polA ∧
    policies.Get midStore "old" = defaultPolicy ∧
    policies.Get finStore "old" = polNew ∧
    defaultPolicy ≠ polA ∧ defaultPolicy ≠ polNew := by
  refine ⟨by decide, ?_, ?_, by decide, by decide⟩
  · show policies.Get ((runStates storeOld (loadSteps ["old"] [("old", polNew)])).getD 1 storeOld) "old" = defaultPolicy
    decide
  · show policies.Get ((runStates storeOld (loadSteps ["old"] [("old", polNew)])).getD 2 storeOld) "old" = polNew
    decide
